import Mathlib

/-!
Verification of the web-agent browser-automation core against its
natural-language specification.

The development is a shallow embedding of the Python sources:

* `src/executor/command_executor.py` — `_execute_step`, `_attempt_recovery`
  and `execute_command_iteratively` (the orchestration loop);
* `src/controller/marionette_controller.py` — the pure scanning logic of
  `get_target_coordinates_ocr` and `get_dom_context`.

External effects (the Marionette browser driver, the LLM oracle, OCR) are
modelled as oracles: a `Controller` record of functions whose results stand
for the dictionaries the Python controller methods return, and — for the
orchestration loop — a `LoopEnv` record threading an abstract world state
`σ` through every external call.  A Python call that may raise is modelled
as `Except String Outcome`; Python dictionaries with a fixed key set are
modelled as structures, optional keys as `Option` fields.
-/

/-- Python `str.strip()` restricted to whitespace, as used on selectors and
OCR text (all ASCII in this code base): drop leading and trailing
whitespace characters. -/
def pyStrip (s : String) : String :=
  ⟨((s.data.dropWhile Char.isWhitespace).reverse.dropWhile Char.isWhitespace).reverse⟩

/-- Python `str.upper()` on the ASCII strings this code compares. -/
def pyUpper (s : String) : String :=
  ⟨s.data.map Char.toUpper⟩

/-- Python `str.lower()` on the ASCII strings this code compares. -/
def pyLower (s : String) : String :=
  ⟨s.data.map Char.toLower⟩

/-- Python substring test `needle in hay`. -/
def pyIn (needle hay : String) : Bool :=
  decide (List.IsInfix needle.data hay.data)

/-- The `status` value of an outcome dictionary: always `"success"` or
`"error"` in the source. -/
inductive Status where
  | success
  | error
deriving DecidableEq, Repr

/-- An outcome dictionary, e.g. `{"status": ..., "message": ...}`.
`data` models the optional `"data"` key (set by `extract`).  `action`
models the optional `"action"` key: `execute_command_iteratively` reads it
via `r.get("action")` in its final status check, but no outcome dictionary
constructed anywhere in the source carries that key, so every construction
in this file leaves it `none`. -/
structure Outcome where
  status : Status
  message : String
  data : Option String := none
  action : Option String := none
deriving DecidableEq, Repr

/-- Screen coordinates, the `{"x": ..., "y": ...}` dictionaries. -/
structure Coords where
  x : Int
  y : Int
deriving DecidableEq, Repr

/-- The `params` dictionary of a step produced by
`CommandParser.get_next_step`; each field models the presence or absence of
the corresponding key (`params["url"]` raising `KeyError` on an absent key
is modelled by the `none` case). -/
structure Params where
  url : Option String := none
  query : Option String := none
  selector : Option String := none
  text : Option String := none
  seconds : Option Int := none
  message : Option String := none
deriving DecidableEq, Repr

/-- A step dictionary `{"action": ..., "params": ..., "dom": ...}` handed to
`_execute_step`; `coords` models the optional `"coords"` key read by the
click branch. -/
structure Step where
  action : String
  params : Params := {}
  dom : Option String := none
  coords : Option Coords := none
deriving DecidableEq, Repr

/-- Oracle for the `EnhancedMarionetteController` methods invoked by
`_execute_step`.  Each method of the Python class returns an outcome
dictionary; a call that raises instead is the `Except.error` case.  The
OCR lookup returns `{"x": .., "y": ..}` or the empty dictionary (`none`). -/
structure Controller where
  navigate : String → Except String Outcome
  click : String → Except String Outcome
  click_by_coordinates : Int → Int → Except String Outcome
  search : String → Except String Outcome
  input_text : String → String → Except String Outcome
  extract : String → Except String Outcome
  get_target_coordinates_ocr : String → Except String (Option Coords)

/-- Step 4 of the click fallback chain in `_execute_step` (lines 71–76):
last resort, use the descriptive parameter text itself as a selector. -/
def click_tier4 (c : Controller) (target : String) : Except String Outcome :=
  if target ≠ "" then
    c.click target
  else
    Except.ok { status := .error, message := "No valid selector provided for click action." }

/-- Step 3 of the click fallback chain (lines 60–69): OCR lookup of the
descriptive target text; on a hit, click the returned coordinates. -/
def click_tier3 (c : Controller) (target : String) : Except String Outcome :=
  if target ≠ "" then
    Except.bind (c.get_target_coordinates_ocr target) fun ocr =>
      match ocr with
      | some pt => c.click_by_coordinates pt.x pt.y
      | none => click_tier4 c target
  else
    click_tier4 c target

/-- Step 2 of the click fallback chain (lines 55–58): vision-based
coordinates carried by the step itself. -/
def click_tier2 (c : Controller) (coords : Option Coords) (target : String) :
    Except String Outcome :=
  match coords with
  | some pt => c.click_by_coordinates pt.x pt.y
  | none => click_tier3 c target

/-- The whole click branch of `_execute_step` (lines 43–76).  Step 1 tries
the DOM selector when it is non-empty and its upper-casing differs from
`"N/A"`; an error outcome or a raised exception from that attempt falls
through to the later tiers. -/
def click_action (c : Controller) (dom_selector target : String) (coords : Option Coords) :
    Except String Outcome :=
  if dom_selector ≠ "" ∧ pyUpper dom_selector ≠ "N/A" then
    match c.click dom_selector with
    | Except.ok result =>
        if result.status = .success then Except.ok result
        else click_tier2 c coords target
    | Except.error _ => click_tier2 c coords target
  else
    click_tier2 c coords target

/-- The body of the `try` block of `_execute_step` (lines 39–100).  An
`Except.error` is an exception reaching the enclosing `except`. -/
def execute_step_body (c : Controller) (s : Step) : Except String Outcome :=
  let params := s.params
  let dom_selector := pyStrip (s.dom.getD "")
  if s.action = "navigate" then
    match params.url with
    | some url => c.navigate url
    | none => Except.error "'url'"
  else if s.action = "click" then
    click_action c dom_selector (pyStrip (params.selector.getD "")) s.coords
  else if s.action = "search" then
    match params.query with
    | some q => c.search q
    | none => Except.error "'query'"
  else if s.action = "input" then
    let selector :=
      if dom_selector ≠ "" ∧ pyUpper dom_selector ≠ "N/A" then dom_selector
      else pyStrip (params.selector.getD "")
    match params.text with
    | some t => c.input_text selector t
    | none => Except.error "'text'"
  else if s.action = "extract" then
    let selector :=
      if dom_selector ≠ "" ∧ pyUpper dom_selector ≠ "N/A" then dom_selector
      else pyStrip (params.selector.getD "")
    c.extract selector
  else if s.action = "wait" then
    let seconds := params.seconds.getD 2
    if seconds < 0 then
      Except.error "sleep length must be non-negative"
    else
      Except.ok { status := .success, message := "Waited " ++ toString seconds ++ " seconds" }
  else if s.action = "complete" then
    Except.ok { status := .success, message := "Task completed successfully" }
  else
    Except.ok { status := .error, message := "Unknown action: " ++ s.action }

/-- The `except Exception` handler of `_execute_step` (lines 102–103):
convert a raised exception into an error outcome. -/
def catch_step (action : String) (r : Except String Outcome) : Outcome :=
  match r with
  | Except.ok result => result
  | Except.error e =>
      { status := .error, message := "Error executing " ++ action ++ ": " ++ e }

/-- Embedding of `_execute_step` (lines 24–103): the dispatch body guarded by the
outermost `try`/`except`. -/
def execute_step (c : Controller) (s : Step) : Outcome :=
  catch_step s.action (execute_step_body c s)

/-- Embedding of `_attempt_recovery` (lines 105–128).  Case 1 retries the failed step
after a settle wait (the `time.sleep(3)` is unobservable here); case 2
navigates to Google and, if that navigation succeeded, re-executes the
original search step, returning that second result unconditionally. -/
def attempt_recovery (c : Controller) (failed_step : Step) (error_result : Outcome)
    (step_index : Nat) : Option Outcome :=
  let action := failed_step.action
  let error_msg := error_result.message
  let case2 : Option Outcome :=
    if action = "search" ∧ pyIn "search box" error_msg = true ∧ step_index = 0 then
      let nav_step : Step := { action := "navigate", params := { url := some "https://www.google.com" } }
      let nav_result := execute_step c nav_step
      if nav_result.status = .success then some (execute_step c failed_step) else none
    else
      none
  if pyIn "not found" error_msg = true ∧
      (action = "click" ∨ action = "input" ∨ action = "extract") then
    let retry_result := execute_step c failed_step
    if retry_result.status = .success then some retry_result else case2
  else
    case2

/-- The four target-resolution tiers of the click branch, in source order:
DOM selector, vision coordinates, OCR text match, descriptive text as
selector. -/
inductive Tier where
  | structural
  | spatial
  | optical
  | descriptive
deriving DecidableEq, Repr

/-- Copy of `click_tier4` instrumented with the list of tiers it attempts. -/
def click_tier4_tr (c : Controller) (target : String) :
    Except String Outcome × List Tier :=
  if target ≠ "" then
    (c.click target, [Tier.descriptive])
  else
    (Except.ok { status := .error, message := "No valid selector provided for click action." }, [])

/-- Copy of `click_tier3` instrumented with the list of tiers it attempts. -/
def click_tier3_tr (c : Controller) (target : String) :
    Except String Outcome × List Tier :=
  if target ≠ "" then
    match c.get_target_coordinates_ocr target with
    | Except.error e => (Except.error e, [Tier.optical])
    | Except.ok (some pt) => (c.click_by_coordinates pt.x pt.y, [Tier.optical])
    | Except.ok none =>
        let r := click_tier4_tr c target
        (r.1, Tier.optical :: r.2)
  else
    click_tier4_tr c target

/-- Copy of `click_tier2` instrumented with the list of tiers it attempts. -/
def click_tier2_tr (c : Controller) (coords : Option Coords) (target : String) :
    Except String Outcome × List Tier :=
  match coords with
  | some pt => (c.click_by_coordinates pt.x pt.y, [Tier.spatial])
  | none => click_tier3_tr c target

/-- Copy of `click_action` instrumented with the list of tiers it attempts. -/
def click_action_tr (c : Controller) (dom_selector target : String) (coords : Option Coords) :
    Except String Outcome × List Tier :=
  if dom_selector ≠ "" ∧ pyUpper dom_selector ≠ "N/A" then
    match c.click dom_selector with
    | Except.ok result =>
        if result.status = .success then (Except.ok result, [Tier.structural])
        else
          let r := click_tier2_tr c coords target
          (r.1, Tier.structural :: r.2)
    | Except.error _ =>
        let r := click_tier2_tr c coords target
        (r.1, Tier.structural :: r.2)
  else
    click_tier2_tr c coords target

/-- Copy of `_execute_step` instrumented with the list of click tiers it attempts;
non-click actions attempt none. -/
def execute_step_tr (c : Controller) (s : Step) : Outcome × List Tier :=
  if s.action = "click" then
    let r := click_action_tr c (pyStrip (s.dom.getD "")) (pyStrip (s.params.selector.getD "")) s.coords
    (catch_step s.action r.1, r.2)
  else
    (execute_step c s, [])

/-- The instrumentation of `click_tier4` does not change its outcome. -/
theorem click_tier4_tr_fst (c : Controller) (target : String) :
    (click_tier4_tr c target).1 = click_tier4 c target := by
  unfold click_tier4_tr click_tier4
  split <;> rfl

/-- The instrumentation of `click_tier3` does not change its outcome. -/
theorem click_tier3_tr_fst (c : Controller) (target : String) :
    (click_tier3_tr c target).1 = click_tier3 c target := by
  unfold click_tier3_tr click_tier3
  split
  · rcases h : c.get_target_coordinates_ocr target with e | o
    · rfl
    · rcases o with _ | pt
      · simp [Except.bind, h, click_tier4_tr_fst]
      · simp [Except.bind, h]
  · exact click_tier4_tr_fst c target

/-- The instrumentation of `click_tier2` does not change its outcome. -/
theorem click_tier2_tr_fst (c : Controller) (coords : Option Coords) (target : String) :
    (click_tier2_tr c coords target).1 = click_tier2 c coords target := by
  unfold click_tier2_tr click_tier2
  rcases coords with _ | pt
  · exact click_tier3_tr_fst c target
  · rfl

/-- The instrumentation of `click_action` does not change its outcome. -/
theorem click_action_tr_fst (c : Controller) (dom_selector target : String)
    (coords : Option Coords) :
    (click_action_tr c dom_selector target coords).1 = click_action c dom_selector target coords := by
  unfold click_action_tr click_action
  split
  · rcases c.click dom_selector with e | result
    · exact click_tier2_tr_fst c coords target
    · by_cases hs : result.status = Status.success <;> simp [hs, click_tier2_tr_fst]
  · exact click_tier2_tr_fst c coords target

/-- The instrumentation of `_execute_step` does not change its outcome. -/
theorem execute_step_tr_fst (c : Controller) (s : Step) :
    (execute_step_tr c s).1 = execute_step c s := by
  unfold execute_step_tr
  by_cases h : s.action = "click"
  · simp only [h, if_pos rfl]
    unfold execute_step execute_step_body
    simp [h, click_action_tr_fst]
  · simp [h]

/-- Environment of `execute_command_iteratively`: the external calls the
loop body makes, threaded through an abstract world state `σ` (browser and
conversation state).  `get_next_step` covers the `get_dom_context` probe
plus `parser.get_next_step` (its decision may depend on the world and on
the transcript so far); `exec_step` is the behaviour of `_execute_step` at
that world; `recover` the behaviour of `_attempt_recovery`. -/
structure LoopEnv (σ : Type) where
  get_next_step : σ → List Outcome → Option Step × σ
  exec_step : σ → Step → Outcome × σ
  recover : σ → Step → Outcome → Nat → Option Outcome × σ

/-- A `LoopEnv` over a trivial world, obtained from a stateless
`Controller`: the instantiation tying the loop to `execute_step` and
`attempt_recovery`. -/
def loopEnvOfController (c : Controller) (oracle : List Outcome → Option Step) :
    LoopEnv Unit where
  get_next_step := fun st results => (oracle results, st)
  exec_step := fun st s => (execute_step c s, st)
  recover := fun st s e i => (attempt_recovery c s e i, st)

/-- The step budget `max_steps = 15` (command_executor.py line 141). -/
def max_steps : Nat := 15

/-- The failure budget `max_failures = 3` (command_executor.py line 143). -/
def max_failures : Nat := 3

/-- Result of running the `for` loop: the `results` transcript, the final
world, and the number of loop iterations whose body was entered. -/
structure LoopResult (σ : Type) where
  results : List Outcome
  state : σ
  iters : Nat

/-- The `for i in range(max_steps)` loop of `execute_command_iteratively`
(lines 145–197), as structural recursion on the remaining iteration budget
`fuel`; `i` is the current index, `cf` the `consecutive_failures` counter.
Appending the recovered outcome over `results` (not `results ++ [result]`)
models the `results[-1] = recovered` overwrite. -/
def command_loop (env : LoopEnv σ) : Nat → Nat → List Outcome → Nat → σ → LoopResult σ
  | 0, _, results, _, st => ⟨results, st, 0⟩
  | fuel + 1, i, results, cf, st =>
    match env.get_next_step st results with
    | (none, st1) => ⟨results, st1, 1⟩
    | (some next_step, st1) =>
      if next_step.action = "complete" then
        let message := next_step.params.message.getD "Task completed"
        ⟨results ++ [{ status := .success, message := message }], st1, 1⟩
      else
        let (result, st2) := env.exec_step st1 next_step
        if result.status = .success then
          let r := command_loop env fuel (i + 1) (results ++ [result]) 0 st2
          ⟨r.results, r.state, r.iters + 1⟩
        else if cf + 1 < max_failures then
          match env.recover st2 next_step result i with
          | (some recovered, st3) =>
            let r := command_loop env fuel (i + 1) (results ++ [recovered]) 0 st3
            ⟨r.results, r.state, r.iters + 1⟩
          | (none, st3) =>
            let r := command_loop env fuel (i + 1) (results ++ [result]) (cf + 1) st3
            ⟨r.results, r.state, r.iters + 1⟩
        else
          ⟨results ++ [result], st2, 1⟩

/-- The dictionary returned by `execute_command_iteratively`
(lines 199–205). -/
structure CommandResult where
  status : Status
  steps_completed : Nat
  total_steps : Nat
  results : List Outcome
deriving DecidableEq, Repr

/-- Embedding of `execute_command_iteratively` (lines 130–205), from an established
connection onward: run the loop, then compute the final status —
`"success"` if some transcript entry's `"action"` key equals `"complete"`
or every entry's status is success, else `"error"`. -/
def execute_command_iteratively (env : LoopEnv σ) (st : σ) : CommandResult :=
  let r := command_loop env max_steps 0 [] 0 st
  { status :=
      if r.results.any (fun o => o.action == some "complete") ||
          r.results.all (fun o => o.status == .success) then .success else .error
    steps_completed := r.results.length
    total_steps := r.results.length
    results := r.results }

/-- One OCR detection: a row of the `pytesseract.image_to_data` dictionary
(`text`, parsed `conf`, and the `left`/`top`/`width`/`height` box). -/
structure OcrBox where
  text : String
  conf : Int
  left : Int
  top : Int
  width : Int
  height : Int
deriving DecidableEq, Repr

/-- A detection qualifies when its confidence strictly exceeds the
threshold and the lowercased target occurs in the lowercased, stripped
detection text (marionette_controller.py lines 499–505). -/
def ocrMatches (target_text : String) (confidence_threshold : Int) (b : OcrBox) : Bool :=
  confidence_threshold < b.conf && pyIn (pyLower target_text) (pyLower (pyStrip b.text))

/-- Center of a detection's bounding box: `left + width // 2`,
`top + height // 2` with Python floor division (lines 506–512). -/
def ocrCenter (b : OcrBox) : Coords :=
  { x := b.left + Int.fdiv b.width 2, y := b.top + Int.fdiv b.height 2 }

/-- The scan loop of `get_target_coordinates_ocr` (lines 497–516): walk the
detections in order and return the center of the first qualifying one, or
nothing.  Screenshot capture, decoding and OCR itself are the environment;
the scan receives their output rows. -/
def get_target_coordinates_ocr_scan (boxes : List OcrBox) (target_text : String)
    (confidence_threshold : Int) : Option Coords :=
  match boxes with
  | [] => none
  | b :: rest =>
    if ocrMatches target_text confidence_threshold b then
      some (ocrCenter b)
    else
      get_target_coordinates_ocr_scan rest target_text confidence_threshold

/-- JavaScript truthiness of a string-or-null value (`null` and `""` are
falsy), used by the element filter and the `x || null` attribute
normalisations in the `get_dom_context` page script. -/
def jsTruthy : Option String → Bool
  | none => false
  | some s => s ≠ ""

/-- JavaScript `x || null` on a string-or-null value. -/
def jsOrNull (o : Option String) : Option String :=
  if jsTruthy o then o else none

/-- A candidate element as seen by the `get_dom_context` page script: the
DOM properties and attributes the script reads.  `width`/`height` are the
bounding-rectangle dimensions, `visibilityHidden`/`displayNone` the two
computed-style checks; attribute fields are `none` when the attribute (or
property) is absent. -/
structure PageElement where
  tagName : String
  textContent : String
  width : Int
  height : Int
  visibilityHidden : Bool
  displayNone : Bool
  placeholder : Option String
  ariaLabel : Option String
  id : String
  name : Option String
  className : String
  href : Option String
  title : Option String
  top : Int
  left : Int
deriving DecidableEq, Repr

/-- The filter of the page script (lines 373–382): visible, and with text
or at least one meaningful attribute. -/
def elementKept (el : PageElement) : Bool :=
  let isVisible := el.width > 0 && el.height > 0 && !el.visibilityHidden && !el.displayNone
  let textPresent := el.textContent ≠ "" && ((pyStrip el.textContent).length > 0 : Bool)
  let hasAttributes := jsTruthy el.placeholder || jsTruthy el.ariaLabel ||
    el.id ≠ "" || jsTruthy el.href
  isVisible && (textPresent || hasAttributes)

/-- The `priority` function of the page script's sort comparator
(lines 387–392): 1 for input/button, 2 for anchors, 3 otherwise. -/
def tagPriority (tag : String) : Nat :=
  if tag = "input" ∨ tag = "button" then 1
  else if tag = "a" then 2
  else 3

/-- Priority of a candidate element (`priority(el)` on
`el.tagName.toLowerCase()`). -/
def elemPriority (el : PageElement) : Nat :=
  tagPriority (pyLower el.tagName)

/-- The comparator order used by the page script's stable sort. -/
def prioRel (a b : PageElement) : Prop :=
  elemPriority a ≤ elemPriority b

instance : DecidableRel prioRel :=
  fun a b => Nat.decLe (elemPriority a) (elemPriority b)

instance : IsTotal PageElement prioRel :=
  ⟨fun a b => Nat.le_total (elemPriority a) (elemPriority b)⟩

instance : IsTrans PageElement prioRel :=
  ⟨fun _ _ _ hab hbc => Nat.le_trans hab hbc⟩

/-- The simplified element dictionary the page script returns
(lines 397–417). -/
structure DomElement where
  tag : String
  text : String
  attr_id : Option String
  attr_name : Option String
  attr_class : Option String
  attr_placeholder : Option String
  attr_aria_label : Option String
  attr_href : Option String
  attr_title : Option String
  pos_top : Int
  pos_left : Int
deriving DecidableEq, Repr

/-- The `.map(el => ...)` projection of the page script (lines 397–417):
trim the text, truncate it past 100 characters with an ellipsis, normalise
absent attributes to null, round the position. -/
def toDomElement (el : PageElement) : DomElement :=
  let trimmed := pyStrip el.textContent
  let text := if trimmed.length > 100 then trimmed.take 100 ++ "..." else trimmed
  { tag := pyLower el.tagName
    text := text
    attr_id := jsOrNull (some el.id)
    attr_name := jsOrNull el.name
    attr_class := jsOrNull (some el.className)
    attr_placeholder := jsOrNull el.placeholder
    attr_aria_label := jsOrNull el.ariaLabel
    attr_href := jsOrNull el.href
    attr_title := jsOrNull el.title
    pos_top := el.top
    pos_left := el.left }

/-- Priority bucket of a returned element (its `tag` is already
lower-cased). -/
def domBucket (d : DomElement) : Nat :=
  tagPriority d.tag

/-- The page script `getInteractiveElements(arguments[0] || 200)` of
`get_dom_context` (lines 365–419): filter, stable-sort by priority,
truncate, project.  A JavaScript-falsy bound of `0` falls back to `200`
exactly as `arguments[0] || 200` does. -/
def getInteractiveElements (allElements : List PageElement) (maxElements : Nat) :
    List DomElement :=
  let bound := if maxElements = 0 then 200 else maxElements
  let visibleElements := allElements.filter elementKept
  ((visibleElements.insertionSort prioRel).take bound).map toDomElement

/-- Embedding of `get_dom_context` (lines 358–425): run the page script on the live
document — modelled as an `Except` whose error case is a raised script
execution error — and return `[]` on failure. -/
def get_dom_context (page : Except String (List PageElement)) (maxElements : Nat) :
    List DomElement :=
  match page with
  | Except.ok allElements => getInteractiveElements allElements maxElements
  | Except.error _ => []

/-- A concrete controller instantiating the environment in witnesses: every
call answers with a plain outcome dictionary. -/
def cEx : Controller where
  navigate := fun _ => Except.ok { status := .success, message := "Navigated to https://www.google.com" }
  click := fun _ => Except.ok { status := .error, message := "Element not found: #x" }
  click_by_coordinates := fun _ _ => Except.ok { status := .error, message := "No element found at coordinates (125, 210)" }
  search := fun _ => Except.ok { status := .success, message := "Performed search for: cats" }
  input_text := fun _ _ => Except.ok { status := .success, message := "Entered text in element: q" }
  extract := fun _ => Except.ok { status := .success, message := "Extracted content" }
  get_target_coordinates_ocr := fun _ => Except.ok (some { x := 125, y := 210 })

/-- Variant of `cEx` with an OCR that finds nothing. -/
def cExNoOcr : Controller :=
  { cEx with get_target_coordinates_ocr := fun _ => Except.ok none }

/-- C6: a single call to `_execute_step` always returns an outcome whose
status is success or error, and any exception raised inside its body is
converted by the `except` handler into an error outcome carrying the
`"Error executing <action>: <message>"` text — no exception escapes to the
orchestrator. -/
theorem execute_step_never_escapes (c : Controller) (s : Step) :
    ((execute_step c s).status = Status.success ∨ (execute_step c s).status = Status.error) ∧
    (∀ e, execute_step_body c s = Except.error e →
      execute_step c s =
        { status := .error, message := "Error executing " ++ s.action ++ ": " ++ e }) := by
  constructor
  · cases h : (execute_step c s).status
    · exact Or.inl rfl
    · exact Or.inr rfl
  · intro e he
    unfold execute_step catch_step
    rw [he]

/-- Witness for C6: a `wait` step whose negative duration raises inside the
body is returned as a converted error outcome. -/
theorem execute_step_never_escapes_witness :
    execute_step cEx { action := "wait", params := { seconds := some (-1) } } =
      { status := .error,
        message := "Error executing " ++ "wait" ++ ": " ++ "sleep length must be non-negative" } :=
  (execute_step_never_escapes cEx { action := "wait", params := { seconds := some (-1) } }).2
    "sleep length must be non-negative" rfl

/-- C8 as stated is false: a `wait` action carrying `seconds = -1` does not
succeed — `time.sleep(-1)` raises and the handler returns an error
outcome. -/
theorem wait_negative_seconds_counterexample :
    (execute_step cEx { action := "wait", params := { seconds := some (-1) } }).status =
      Status.error := by decide

/-- C8 amended: `wait` converts the `seconds` parameter (default 2) to an
integer with no clamping; it returns a success outcome exactly when that
value is non-negative, and an error outcome (the raised sleep error,
converted) when it is negative. -/
theorem wait_success_iff_nonneg_seconds (c : Controller) (s : Step)
    (hact : s.action = "wait") :
    (0 ≤ s.params.seconds.getD 2 →
      execute_step c s =
        { status := .success,
          message := "Waited " ++ toString (s.params.seconds.getD 2) ++ " seconds" }) ∧
    (s.params.seconds.getD 2 < 0 →
      execute_step c s =
        { status := .error,
          message := "Error executing wait: sleep length must be non-negative" }) := by
  by_cases hneg : s.params.seconds.getD 2 < 0
  · refine ⟨fun h0 => absurd hneg (by omega), fun _ => ?_⟩
    unfold execute_step execute_step_body catch_step
    simp [hact, hneg]
  · refine ⟨fun _ => ?_, fun h0 => absurd h0 hneg⟩
    unfold execute_step execute_step_body catch_step
    simp [hact, hneg]

/-- Witness for the amended C8: a `wait` step with no `seconds` key uses the
default of 2 and succeeds. -/
theorem wait_success_iff_nonneg_seconds_witness :
    execute_step cEx { action := "wait" } =
      { status := .success, message := "Waited " ++ toString ((2 : Int)) ++ " seconds" } :=
  (wait_success_iff_nonneg_seconds cEx { action := "wait" } rfl).1 (by decide)

/-- Copy of `_attempt_recovery` instrumented with the number of times the failed
step itself is re-executed (the navigation of case 2 is not a retry of the
failed step and is not counted). -/
def attempt_recovery_tr (c : Controller) (failed_step : Step) (error_result : Outcome)
    (step_index : Nat) : Option Outcome × Nat :=
  let action := failed_step.action
  let error_msg := error_result.message
  let case2 : Option Outcome × Nat :=
    if action = "search" ∧ pyIn "search box" error_msg = true ∧ step_index = 0 then
      let nav_step : Step := { action := "navigate", params := { url := some "https://www.google.com" } }
      let nav_result := execute_step c nav_step
      if nav_result.status = .success then (some (execute_step c failed_step), 1) else (none, 0)
    else
      (none, 0)
  if pyIn "not found" error_msg = true ∧
      (action = "click" ∨ action = "input" ∨ action = "extract") then
    let retry_result := execute_step c failed_step
    if retry_result.status = .success then (some retry_result, 1)
    else (case2.1, case2.2 + 1)
  else
    case2

/-- The instrumentation of `_attempt_recovery` does not change its result. -/
theorem attempt_recovery_tr_fst (c : Controller) (s : Step) (e : Outcome) (i : Nat) :
    (attempt_recovery_tr c s e i).1 = attempt_recovery c s e i := by
  simp only [attempt_recovery_tr, attempt_recovery]
  split
  · split
    · rfl
    · split
      · split <;> rfl
      · rfl
  · split
    · split <;> rfl
    · rfl

/-- C5: the recovery policy performs at most one retry of the failed step
and never recurses (`attempt_recovery_tr` is not recursive); a retry can
only happen under the element-not-found rule for click/input/extract or
under the first-step search-box rule, and outside both rules the policy
returns nothing having retried nothing. -/
theorem attempt_recovery_at_most_one_retry (c : Controller) (s : Step) (e : Outcome) (i : Nat) :
    (attempt_recovery_tr c s e i).2 ≤ 1 ∧
    (1 ≤ (attempt_recovery_tr c s e i).2 →
      (pyIn "not found" e.message = true ∧
        (s.action = "click" ∨ s.action = "input" ∨ s.action = "extract")) ∨
      (s.action = "search" ∧ pyIn "search box" e.message = true ∧ i = 0)) ∧
    (¬(pyIn "not found" e.message = true ∧
        (s.action = "click" ∨ s.action = "input" ∨ s.action = "extract")) →
      ¬(s.action = "search" ∧ pyIn "search box" e.message = true ∧ i = 0) →
      attempt_recovery_tr c s e i = (none, 0)) := by
  by_cases h1 : pyIn "not found" e.message = true ∧
      (s.action = "click" ∨ s.action = "input" ∨ s.action = "extract")
  · have h2 : ¬(s.action = "search" ∧ pyIn "search box" e.message = true ∧ i = 0) := by
      rintro ⟨hs, -, -⟩
      rcases h1.2 with ha | ha | ha <;> rw [hs] at ha <;> exact absurd ha (by decide)
    have hv : (attempt_recovery_tr c s e i).2 = 1 := by
      simp only [attempt_recovery_tr]
      split_ifs <;> simp_all
    exact ⟨by omega, fun _ => Or.inl h1, fun hc => absurd h1 hc⟩
  · by_cases h2 : s.action = "search" ∧ pyIn "search box" e.message = true ∧ i = 0
    · have hv : (attempt_recovery_tr c s e i).2 ≤ 1 := by
        simp only [attempt_recovery_tr]
        split_ifs <;> simp_all
      exact ⟨hv, fun _ => Or.inr h2, fun _ hc => absurd h2 hc⟩
    · have hval : attempt_recovery_tr c s e i = (none, 0) := by
        simp only [attempt_recovery_tr]
        split_ifs
        simp_all
      refine ⟨by simp [hval], fun h => ?_, fun _ _ => hval⟩
      rw [hval] at h
      exact absurd h (by decide)

/-- Witness for C5: a failed `wait` step with a timeout message matches
neither recovery rule — no retry, no recovered outcome. -/
theorem attempt_recovery_at_most_one_retry_witness :
    attempt_recovery_tr cEx { action := "wait" }
      { status := .error, message := "Timeout while navigating" } 1 = (none, 0) :=
  (attempt_recovery_at_most_one_retry cEx { action := "wait" }
      { status := .error, message := "Timeout while navigating" } 1).2.2
    (by decide) (by decide)

/-- With hint `"N/A"`, no coordinates and a non-empty target, the click
chain reduces to the OCR tier followed, on an OCR miss, by the
descriptive-as-selector tier. -/
theorem click_action_tr_na (c : Controller) (target : String) (h : target ≠ "") :
    click_action_tr c "N/A" target none =
      match c.get_target_coordinates_ocr target with
      | Except.error e => (Except.error e, [Tier.optical])
      | Except.ok (some pt) => (c.click_by_coordinates pt.x pt.y, [Tier.optical])
      | Except.ok none => (c.click target, [Tier.optical, Tier.descriptive]) := by
  have hna : ¬(("N/A" : String) ≠ "" ∧ pyUpper "N/A" ≠ "N/A") := by decide
  unfold click_action_tr click_tier2_tr click_tier3_tr click_tier4_tr
  rw [if_neg hna]
  rcases hocr : c.get_target_coordinates_ocr target with e | o
  · simp [h, hocr]
  · rcases o with _ | pt <;> simp [h, hocr]

/-- C2: for a click whose `domHint` is the literal `"N/A"`, with no
coordinates and a non-empty descriptive target, `_execute_step` attempts
the optical tier and then, exactly when the OCR lookup returned no match,
the descriptive-as-selector tier — never the structural or spatial
tiers. -/
theorem click_na_attempts_optical_then_descriptive (c : Controller) (s : Step)
    (hact : s.action = "click") (hdom : s.dom = some "N/A") (hco : s.coords = none)
    (htgt : pyStrip (s.params.selector.getD "") ≠ "") :
    ((execute_step_tr c s).2 = [Tier.optical] ∨
      (execute_step_tr c s).2 = [Tier.optical, Tier.descriptive]) ∧
    ((execute_step_tr c s).2 = [Tier.optical, Tier.descriptive] ↔
      c.get_target_coordinates_ocr (pyStrip (s.params.selector.getD "")) = Except.ok none) := by
  have hsel : pyStrip (s.dom.getD "") = "N/A" := by rw [hdom]; rfl
  have hstep : execute_step_tr c s =
      (catch_step s.action (click_action_tr c "N/A" (pyStrip (s.params.selector.getD "")) none).1,
        (click_action_tr c "N/A" (pyStrip (s.params.selector.getD "")) none).2) := by
    unfold execute_step_tr
    rw [if_pos hact, hsel, hco, hact]
  rw [hstep, click_action_tr_na c _ htgt]
  rcases hocr : c.get_target_coordinates_ocr (pyStrip (s.params.selector.getD "")) with e | o
  · simp
  · rcases o with _ | pt <;> simp

/-- Witness for C2: with an OCR that finds nothing, the concrete click step
from end-to-end scenario 2 attempts the optical tier then the descriptive
tier. -/
theorem click_na_attempts_optical_then_descriptive_witness :
    (execute_step_tr cExNoOcr
      { action := "click", params := { selector := some "Add to cart" }, dom := some "N/A" }).2 =
      [Tier.optical, Tier.descriptive] :=
  (click_na_attempts_optical_then_descriptive cExNoOcr
    { action := "click", params := { selector := some "Add to cart" }, dom := some "N/A" }
    rfl rfl rfl (by decide)).2.mpr rfl

/-- The structural tier never appears in the trace of tier 4. -/
theorem structural_not_mem_tier4 (c : Controller) (target : String) :
    Tier.structural ∉ (click_tier4_tr c target).2 := by
  unfold click_tier4_tr
  split <;> simp

/-- The structural tier never appears in the trace of tier 3. -/
theorem structural_not_mem_tier3 (c : Controller) (target : String) :
    Tier.structural ∉ (click_tier3_tr c target).2 := by
  unfold click_tier3_tr
  split
  · rcases c.get_target_coordinates_ocr target with e | o
    · simp
    · rcases o with _ | pt
      · simpa using structural_not_mem_tier4 c target
      · simp
  · exact structural_not_mem_tier4 c target

/-- The structural tier never appears in the trace of tier 2. -/
theorem structural_not_mem_tier2 (c : Controller) (coords : Option Coords) (target : String) :
    Tier.structural ∉ (click_tier2_tr c coords target).2 := by
  unfold click_tier2_tr
  rcases coords with _ | pt
  · exact structural_not_mem_tier3 c target
  · simp

/-- C9: the `dom_selector.upper() != "N/A"` guard is case-insensitive —
any casing of `"N/A"` in the hint makes `_execute_step` behave exactly as
if the hint were the literal `"N/A"`, and for a click the structural tier
is never attempted. -/
theorem casefold_na_hint_same_as_literal (c : Controller) (s : Step) (hint : String)
    (hdom : s.dom = some hint)
    (hcase : hint = "N/A" ∨ hint = "N/a" ∨ hint = "n/A" ∨ hint = "n/a")
    (hact : s.action = "click" ∨ s.action = "input" ∨ s.action = "extract") :
    execute_step_tr c s = execute_step_tr c { s with dom := some "N/A" } ∧
    (s.action = "click" → Tier.structural ∉ (execute_step_tr c s).2) := by
  obtain ⟨act, p, dom, coords⟩ := s
  simp only at hdom
  subst hdom
  have hcond : ¬(pyStrip hint ≠ "" ∧ pyUpper (pyStrip hint) ≠ "N/A") := by
    rcases hcase with h | h | h | h <;> subst h <;> decide
  have hcondNA : ¬(pyStrip "N/A" ≠ "" ∧ pyUpper (pyStrip "N/A") ≠ "N/A") := by decide
  constructor
  · rcases hact with h | h | h <;> subst h
    · unfold execute_step_tr
      simp only [if_pos rfl]
      unfold click_action_tr
      simp only [Option.getD_some]
      rw [if_neg hcond, if_neg hcondNA]
      simp
    · unfold execute_step_tr execute_step execute_step_body
      simp only [Option.getD_some]
      norm_num
      rw [if_neg hcond, if_neg hcondNA]
      simp
    · unfold execute_step_tr execute_step execute_step_body
      simp only [Option.getD_some]
      norm_num
      rw [if_neg hcond, if_neg hcondNA]
      simp
  · intro h
    simp only at h
    subst h
    unfold execute_step_tr
    simp only [if_pos rfl, Option.getD_some]
    unfold click_action_tr
    rw [if_neg hcond]
    exact structural_not_mem_tier2 c coords (pyStrip (p.selector.getD ""))

/-- Witness for C9: a lower-case `"n/a"` hint yields exactly the behaviour
of the literal `"N/A"` hint on a concrete click step. -/
theorem casefold_na_hint_same_as_literal_witness :
    execute_step_tr cEx
        { action := "click", params := { selector := some "Add to cart" }, dom := some "n/a" } =
      execute_step_tr cEx
        { action := "click", params := { selector := some "Add to cart" }, dom := some "N/A" } :=
  (casefold_na_hint_same_as_literal cEx
    { action := "click", params := { selector := some "Add to cart" }, dom := some "n/a" }
    "n/a" rfl (Or.inr (Or.inr (Or.inr rfl))) (Or.inl rfl)).1

/-- The optical tier never appears in the trace of tier 4. -/
theorem optical_not_mem_tier4 (c : Controller) (target : String) :
    Tier.optical ∉ (click_tier4_tr c target).2 := by
  unfold click_tier4_tr
  split <;> simp

/-- If the optical tier was attempted and the OCR lookup returned
coordinates, tier 3 is exactly the coordinate click with trace
`[optical]`. -/
theorem click_tier3_tr_ocr_hit (c : Controller) (target : String) (pt : Coords)
    (hopt : Tier.optical ∈ (click_tier3_tr c target).2)
    (hocr : c.get_target_coordinates_ocr target = Except.ok (some pt)) :
    click_tier3_tr c target = (c.click_by_coordinates pt.x pt.y, [Tier.optical]) := by
  unfold click_tier3_tr at hopt ⊢
  by_cases h : target ≠ ""
  · rw [if_pos h, hocr]
  · rw [if_neg h] at hopt
    exact absurd hopt (optical_not_mem_tier4 c target)

/-- Tier-2 version of `click_tier3_tr_ocr_hit`. -/
theorem click_tier2_tr_ocr_hit (c : Controller) (coords : Option Coords)
    (target : String) (pt : Coords)
    (hopt : Tier.optical ∈ (click_tier2_tr c coords target).2)
    (hocr : c.get_target_coordinates_ocr target = Except.ok (some pt)) :
    click_tier2_tr c coords target = (c.click_by_coordinates pt.x pt.y, [Tier.optical]) := by
  unfold click_tier2_tr at hopt ⊢
  rcases coords with _ | q
  · exact click_tier3_tr_ocr_hit c target pt hopt hocr
  · simp at hopt

/-- The click chain takes one of three shapes: a successful structural
click, the later tiers behind a failed structural attempt, or the later
tiers directly. -/
theorem click_action_tr_shape (c : Controller) (dsel tgt : String) (coords : Option Coords) :
    (∃ o, click_action_tr c dsel tgt coords = (Except.ok o, [Tier.structural])) ∨
    click_action_tr c dsel tgt coords =
      ((click_tier2_tr c coords tgt).1, Tier.structural :: (click_tier2_tr c coords tgt).2) ∨
    click_action_tr c dsel tgt coords = click_tier2_tr c coords tgt := by
  unfold click_action_tr
  split
  · rcases c.click dsel with e | result
    · exact Or.inr (Or.inl rfl)
    · by_cases hs : result.status = Status.success
      · exact Or.inl ⟨result, by simp [hs]⟩
      · exact Or.inr (Or.inl (by simp [hs]))
  · exact Or.inr (Or.inr rfl)

/-- Whole-chain version: when the optical tier was attempted and OCR
returned coordinates, the chain's outcome is the coordinate click's and
the descriptive tier is absent from the trace. -/
theorem click_action_tr_ocr_hit (c : Controller) (dom_selector target : String)
    (coords : Option Coords) (pt : Coords)
    (hopt : Tier.optical ∈ (click_action_tr c dom_selector target coords).2)
    (hocr : c.get_target_coordinates_ocr target = Except.ok (some pt)) :
    (click_action_tr c dom_selector target coords).1 = c.click_by_coordinates pt.x pt.y ∧
    Tier.descriptive ∉ (click_action_tr c dom_selector target coords).2 := by
  rcases click_action_tr_shape c dom_selector target coords with ⟨o, hsh⟩ | hsh | hsh
  · rw [hsh] at hopt
    simp at hopt
  · rw [hsh] at hopt ⊢
    simp only [List.mem_cons] at hopt
    rcases hopt with h | hopt
    · exact absurd h (by decide)
    · rw [click_tier2_tr_ocr_hit c coords target pt hopt hocr]
      simp
  · rw [hsh] at hopt ⊢
    rw [click_tier2_tr_ocr_hit c coords target pt hopt hocr]
    simp

/-- C10: for a click in which the OCR tier was attempted and returned
coordinates, the step's outcome is the coordinate click's outcome (run
through the exception handler), whatever its status — the
descriptive-as-selector tier is never attempted afterwards. -/
theorem ocr_hit_outcome_is_final (c : Controller) (s : Step) (pt : Coords)
    (hact : s.action = "click")
    (hopt : Tier.optical ∈ (execute_step_tr c s).2)
    (hocr : c.get_target_coordinates_ocr (pyStrip (s.params.selector.getD "")) =
      Except.ok (some pt)) :
    (execute_step_tr c s).1 = catch_step "click" (c.click_by_coordinates pt.x pt.y) ∧
    Tier.descriptive ∉ (execute_step_tr c s).2 := by
  have hstep : execute_step_tr c s =
      (catch_step s.action
        (click_action_tr c (pyStrip (s.dom.getD "")) (pyStrip (s.params.selector.getD "")) s.coords).1,
        (click_action_tr c (pyStrip (s.dom.getD "")) (pyStrip (s.params.selector.getD "")) s.coords).2) := by
    unfold execute_step_tr
    rw [if_pos hact]
  rw [hstep] at hopt ⊢
  simp only at hopt ⊢
  obtain ⟨h1, h2⟩ := click_action_tr_ocr_hit c (pyStrip (s.dom.getD ""))
    (pyStrip (s.params.selector.getD "")) s.coords pt hopt hocr
  exact ⟨by rw [hact, h1], h2⟩

/-- Witness for C10: with `cEx` (whose coordinate click returns an error
outcome), the scenario-2 click step's outcome is exactly that error — the
descriptive tier is not attempted even though the click failed. -/
theorem ocr_hit_outcome_is_final_witness :
    (execute_step_tr cEx
      { action := "click", params := { selector := some "Add to cart" }, dom := some "N/A" }).1 =
        catch_step "click" (cEx.click_by_coordinates 125 210) ∧
    Tier.descriptive ∉
      (execute_step_tr cEx
        { action := "click", params := { selector := some "Add to cart" }, dom := some "N/A" }).2 :=
  ocr_hit_outcome_is_final cEx
    { action := "click", params := { selector := some "Add to cart" }, dom := some "N/A" }
    { x := 125, y := 210 } rfl (by decide) rfl

/-- The locate rule exactly as the specification words it, for comparison
with the source's scan: "first tuple whose confidence exceeds the threshold
and whose lowercase text contains the lowercase target text as a
substring" — no whitespace stripping of the detected text. -/
def ocrMatchesSpecWords (target_text : String) (confidence_threshold : Int) (b : OcrBox) : Bool :=
  confidence_threshold < b.conf && pyIn (pyLower target_text) (pyLower b.text)

/-- The locate result under the specification's wording. -/
def locateSpecWords (boxes : List OcrBox) (target_text : String)
    (confidence_threshold : Int) : Option Coords :=
  (boxes.find? (ocrMatchesSpecWords target_text confidence_threshold)).map ocrCenter

/-- C3 as stated is false: the source strips the detected text before the
case-insensitive containment test (`data['text'][i].strip()`), so a target
with trailing whitespace that the spec's unstripped reading would match is
rejected.  Detection `"Go "` at confidence 99, target `"o "`: the spec
wording matches (center `(125, 210)`), the code returns nothing. -/
theorem ocr_scan_strip_counterexample :
    locateSpecWords
        [{ text := "Go ", conf := 99, left := 100, top := 200, width := 50, height := 20 }]
        "o " 60 = some { x := 125, y := 210 } ∧
    get_target_coordinates_ocr_scan
        [{ text := "Go ", conf := 99, left := 100, top := 200, width := 50, height := 20 }]
        "o " 60 = none := by
  constructor <;> rfl

/-- C3 amended: the scan returns the bounding-box center (with floor
division) of the first detection, in scan order, whose confidence strictly
exceeds the threshold and whose lowercase *whitespace-stripped* text
contains the lowercase target as a substring, and returns nothing exactly
when no detection qualifies; the claim's example box `(100,200,50,20)`
yields center `(125, 210)`. -/
theorem ocr_scan_first_qualifying (boxes : List OcrBox) (target_text : String)
    (confidence_threshold : Int) :
    get_target_coordinates_ocr_scan boxes target_text confidence_threshold =
      (boxes.find? (ocrMatches target_text confidence_threshold)).map ocrCenter ∧
    (get_target_coordinates_ocr_scan boxes target_text confidence_threshold = none ↔
      ∀ b ∈ boxes, ocrMatches target_text confidence_threshold b = false) ∧
    get_target_coordinates_ocr_scan
        [{ text := "Add to cart", conf := 75, left := 100, top := 200, width := 50, height := 20 }]
        "Add to cart" 60 = some { x := 125, y := 210 } := by
  have hfind : get_target_coordinates_ocr_scan boxes target_text confidence_threshold =
      (boxes.find? (ocrMatches target_text confidence_threshold)).map ocrCenter := by
    induction boxes with
    | nil => rfl
    | cons b rest ih =>
      unfold get_target_coordinates_ocr_scan
      by_cases h : ocrMatches target_text confidence_threshold b
      · rw [if_pos h, List.find?_cons_of_pos _ h]
        rfl
      · rw [if_neg h, List.find?_cons_of_neg _ h]
        exact ih
  refine ⟨hfind, ?_, rfl⟩
  rw [hfind]
  constructor
  · intro h b hb
    rcases hf : boxes.find? (ocrMatches target_text confidence_threshold) with _ | v
    · have := List.find?_eq_none.mp hf b hb
      simpa using this
    · rw [hf] at h
      simp at h
  · intro h
    rw [List.find?_eq_none.mpr (fun x hx => by simp [h x hx])]
    rfl

/-- A concrete visible button element. -/
def buttonEx : PageElement :=
  { tagName := "BUTTON"
    textContent := "Go"
    width := 10
    height := 10
    visibilityHidden := false
    displayNone := false
    placeholder := none
    ariaLabel := none
    id := "b1"
    name := none
    className := ""
    href := none
    title := none
    top := 40
    left := 8 }

/-- C4 as stated is false at the bound 0: the page script reads
`arguments[0] || 200`, and JavaScript's `0` is falsy, so a `maxElements`
of 0 falls back to 200 and one element is returned — more than the
requested bound. -/
theorem dom_capture_zero_bound_counterexample :
    (get_dom_context (Except.ok [buttonEx]) 0).length = 1 ∧
    ¬((get_dom_context (Except.ok [buttonEx]) 0).length ≤ 0) := by
  constructor <;> decide

/-- C4 amended: the capture's length never exceeds the effective bound —
`maxElements` itself whenever it is non-zero, the script's fallback of 200
when it is zero —, the priority buckets of the returned elements are
non-decreasing (input/button before links before everything else), and a
script execution failure yields the empty sequence rather than
propagating. -/
theorem dom_capture_bounded_and_bucketed (page : Except String (List PageElement))
    (maxElements : Nat) :
    (get_dom_context page maxElements).length ≤ (if maxElements = 0 then 200 else maxElements) ∧
    List.Sorted (fun a b => domBucket a ≤ domBucket b) (get_dom_context page maxElements) ∧
    (∀ e, get_dom_context (Except.error e) maxElements = []) := by
  refine ⟨?_, ?_, fun e => rfl⟩
  · rcases page with e | els
    · simp [get_dom_context]
    · unfold get_dom_context getInteractiveElements
      rw [List.length_map]
      exact List.length_take_le _ _
  · rcases page with e | els
    · simp [get_dom_context]
    · unfold get_dom_context getInteractiveElements
      have hs : List.Pairwise prioRel ((els.filter elementKept).insertionSort prioRel) :=
        List.sorted_insertionSort prioRel (els.filter elementKept)
      have ht : List.Pairwise prioRel
          (((els.filter elementKept).insertionSort prioRel).take
            (if maxElements = 0 then 200 else maxElements)) :=
        List.Pairwise.sublist (List.take_sublist _ _) hs
      exact List.pairwise_map.mpr ht

/-- A click step whose execution will fail. -/
def failClickStep : Step :=
  { action := "click", params := { selector := some "#signup" } }

/-- The oracle's `complete` decision from end-to-end scenario 4. -/
def completeStepEx : Step :=
  { action := "complete", params := { message := some "Done, redirected to example.com/new" } }

/-- Environment for C1: the oracle proposes a failing click for the first
two iterations and `complete` at the third; executions fail with a
not-found error and recovery yields nothing. -/
def loopEnvC1 : LoopEnv Unit where
  get_next_step := fun st results =>
    (if results.length < 2 then some failClickStep else some completeStepEx, st)
  exec_step := fun st _ => ({ status := .error, message := "Element not found: #signup" }, st)
  recover := fun st _ _ _ => (none, st)

/-- C1 is violated by the code: with two failed steps followed by the
oracle's `complete` at step 3, the loop does halt at iteration 3 with
`steps_completed = 3`, but the final status is `error`, not `success` —
the `any(r.get("action") == "complete")` disjunct can never fire because
no transcript dictionary carries an `"action"` key (last conjunct), and
one recorded outcome failed. -/
theorem complete_after_failures_reports_error :
    (execute_command_iteratively loopEnvC1 ()).status = Status.error ∧
    (execute_command_iteratively loopEnvC1 ()).steps_completed = 3 ∧
    (command_loop loopEnvC1 max_steps 0 [] 0 ()).iters = 3 ∧
    ((command_loop loopEnvC1 max_steps 0 [] 0 ()).results.map (fun o => o.status)) =
      [Status.error, Status.error, Status.success] ∧
    ((command_loop loopEnvC1 max_steps 0 [] 0 ()).results.map (fun o => o.action)) =
      [none, none, none] := by
  refine ⟨?_, ?_, ?_, ?_, ?_⟩ <;> decide

/-- The loop never runs more iterations than its fuel: with fuel
`max_steps = 15` it terminates within 15 iterations for every
environment. -/
theorem command_loop_iters_le_fuel {σ : Type} (env : LoopEnv σ) :
    ∀ fuel i results cf st, (command_loop env fuel i results cf st).iters ≤ fuel := by
  intro fuel
  induction fuel with
  | zero =>
    intro i results cf st
    simp [command_loop]
  | succ n ih =>
    intro i results cf st
    unfold command_loop
    rcases env.get_next_step st results with ⟨o, st1⟩
    rcases o with _ | step
    · simp
    · dsimp only
      split
      · simp
      · split
        · exact Nat.succ_le_succ (ih _ _ _ _)
        · split
          · split
            · exact Nat.succ_le_succ (ih _ _ _ _)
            · exact Nat.succ_le_succ (ih _ _ _ _)
          · simp

/-- With an oracle that always proposes a non-`complete` step and
executions that always fail, an iteration entered with two prior
consecutive failures is the last: the third failure breaks the loop. -/
theorem command_loop_all_fail_cf2 {σ : Type} (env : LoopEnv σ)
    (ho : ∀ st res, ∃ s, (env.get_next_step st res).1 = some s ∧ s.action ≠ "complete")
    (he : ∀ st s, ((env.exec_step st s).1).status = Status.error) :
    ∀ fuel i results st, (command_loop env (fuel + 1) i results 2 st).iters = 1 := by
  intro fuel i results st
  obtain ⟨s, hs, hnc⟩ := ho st results
  have hg : env.get_next_step st results = (some s, (env.get_next_step st results).2) := by
    rw [← hs]
  unfold command_loop
  rw [hg]
  dsimp only
  rw [if_neg hnc, if_neg (by simp [he]), if_neg (by decide)]

/-- One prior consecutive failure: two more failing iterations run (the
second's recovery is skipped by the budget check and the loop breaks). -/
theorem command_loop_all_fail_cf1 {σ : Type} (env : LoopEnv σ)
    (ho : ∀ st res, ∃ s, (env.get_next_step st res).1 = some s ∧ s.action ≠ "complete")
    (he : ∀ st s, ((env.exec_step st s).1).status = Status.error)
    (hr : ∀ st s o i, (env.recover st s o i).1 = none) :
    ∀ fuel i results st, (command_loop env (fuel + 2) i results 1 st).iters = 2 := by
  intro fuel i results st
  obtain ⟨s, hs, hnc⟩ := ho st results
  have hg : env.get_next_step st results = (some s, (env.get_next_step st results).2) := by
    rw [← hs]
  show (command_loop env (fuel + 1 + 1) i results 1 st).iters = 2
  unfold command_loop
  rw [hg]
  dsimp only
  rw [if_neg hnc, if_neg (by simp [he]), if_pos (by decide)]
  have hrec : env.recover (env.exec_step (env.get_next_step st results).2 s).2 s
      (env.exec_step (env.get_next_step st results).2 s).1 i =
      (none, (env.recover (env.exec_step (env.get_next_step st results).2 s).2 s
        (env.exec_step (env.get_next_step st results).2 s).1 i).2) := by
    rw [← hr (env.exec_step (env.get_next_step st results).2 s).2 s
      (env.exec_step (env.get_next_step st results).2 s).1 i]
  rw [hrec]
  dsimp only
  rw [command_loop_all_fail_cf2 env ho he]

/-- Starting fresh, three consecutive unrecovered failures stop the loop
after exactly three iterations. -/
theorem command_loop_all_fail_cf0 {σ : Type} (env : LoopEnv σ)
    (ho : ∀ st res, ∃ s, (env.get_next_step st res).1 = some s ∧ s.action ≠ "complete")
    (he : ∀ st s, ((env.exec_step st s).1).status = Status.error)
    (hr : ∀ st s o i, (env.recover st s o i).1 = none) :
    ∀ fuel i results st, (command_loop env (fuel + 3) i results 0 st).iters = 3 := by
  intro fuel i results st
  obtain ⟨s, hs, hnc⟩ := ho st results
  have hg : env.get_next_step st results = (some s, (env.get_next_step st results).2) := by
    rw [← hs]
  show (command_loop env (fuel + 2 + 1) i results 0 st).iters = 3
  unfold command_loop
  rw [hg]
  dsimp only
  rw [if_neg hnc, if_neg (by simp [he]), if_pos (by decide)]
  have hrec : env.recover (env.exec_step (env.get_next_step st results).2 s).2 s
      (env.exec_step (env.get_next_step st results).2 s).1 i =
      (none, (env.recover (env.exec_step (env.get_next_step st results).2 s).2 s
        (env.exec_step (env.get_next_step st results).2 s).1 i).2) := by
    rw [← hr (env.exec_step (env.get_next_step st results).2 s).2 s
      (env.exec_step (env.get_next_step st results).2 s).1 i]
  rw [hrec]
  dsimp only
  rw [command_loop_all_fail_cf1 env ho he hr]

/-- C7 amended: the loop always terminates within `max_steps` (15)
iterations; and when the oracle always proposes a non-`complete` step,
every execution fails and no recovery succeeds, it terminates after
exactly `max_failures` (3) iterations — strictly fewer than 15.  (If the
third consecutive failure only occurs at the 15th iteration, the loop
still uses all 15 iterations, which is why the claim's unconditional
"fewer" is amended.) -/
theorem loop_within_budget_and_aborts_on_failures {σ : Type} (env : LoopEnv σ) :
    (∀ st, (command_loop env max_steps 0 [] 0 st).iters ≤ max_steps) ∧
    ((∀ st res, ∃ s, (env.get_next_step st res).1 = some s ∧ s.action ≠ "complete") →
      (∀ st s, ((env.exec_step st s).1).status = Status.error) →
      (∀ st s o i, (env.recover st s o i).1 = none) →
      ∀ st, (command_loop env max_steps 0 [] 0 st).iters = max_failures ∧
        max_failures < max_steps) := by
  refine ⟨fun st => command_loop_iters_le_fuel env max_steps 0 [] 0 st, ?_⟩
  intro ho he hr st
  exact ⟨command_loop_all_fail_cf0 env ho he hr 12 0 [] st, by decide⟩

/-- An environment whose first twelve executions succeed and whose
remaining executions fail, recovery never helping. -/
def loopEnvTrailingFailures : LoopEnv Nat where
  get_next_step := fun st _ => (some failClickStep, st)
  exec_step := fun n _ =>
    (if n < 12 then { status := .success, message := "ok" }
     else { status := .error, message := "Element not found: #signup" }, n + 1)
  recover := fun st _ _ _ => (none, st)

/-- C7's second half as stated is false: here three consecutive
unrecovered failures do occur (iterations 13–15), yet the loop still runs
all 15 iterations — not fewer. -/
theorem trailing_failures_counterexample :
    (command_loop loopEnvTrailingFailures max_steps 0 [] 0 0).iters = max_steps ∧
    ((command_loop loopEnvTrailingFailures max_steps 0 [] 0 0).results.map
      (fun o => o.status)) =
      List.replicate 12 Status.success ++ List.replicate 3 Status.error := by
  constructor <;> decide

/-- An environment where every proposed step's execution fails and
recovery never helps. -/
def loopEnvAllFail : LoopEnv Unit where
  get_next_step := fun st _ => (some failClickStep, st)
  exec_step := fun st _ => ({ status := .error, message := "Element not found: #signup" }, st)
  recover := fun st _ _ _ => (none, st)

/-- Witness for the amended C7: the all-failing environment stops after
exactly 3 of the 15 budgeted iterations. -/
theorem loop_within_budget_and_aborts_on_failures_witness :
    (command_loop loopEnvAllFail max_steps 0 [] 0 ()).iters = max_failures ∧
    max_failures < max_steps :=
  (loop_within_budget_and_aborts_on_failures loopEnvAllFail).2
    (fun st res => ⟨failClickStep, rfl, by decide⟩)
    (fun st s => rfl) (fun st s o i => rfl) ()
